import Mathlib

/-!
Shallow embedding of the per-request response-augmentation middleware in
`src/middleware/global.js`: the time-of-day and seasonal greeting helpers,
the head-asset registry (`setHeadAssetsFunctionality` with `addStyle`,
`addScript`, `renderStyles`, `renderScripts`) and the locals composer
(`addLocalVariables`).  Ambient inputs (wall clock, environment variable,
randomness, session) become explicit parameters; the response object's
mutable `res.locals` becomes an explicit record threaded through the
operations.
-/

/-- One entry of the head-asset registry: `{ content, priority }` as pushed by
`res.addStyle` / `res.addScript`. -/
structure AssetEntry where
  content : String
  priority : Int
deriving DecidableEq

/-- The session collaborator: when a session object exists it may carry an
authenticated-user marker (`req.session.user`), modelled as an optional user
identifier. -/
structure Session where
  user : Option String
deriving DecidableEq

/-- The fields of `res.locals` populated by `addLocalVariables`, together with
the two asset collections installed by `setHeadAssetsFunctionality`. -/
structure ResLocals where
  currentYear : Int
  NODE_ENV : String
  greeting : String
  seasonalGreeting : String
  bodyClass : String
  isLoggedIn : Bool
  styles : List AssetEntry
  scripts : List AssetEntry
deriving DecidableEq

/-- `getCurrentGreeting` from the source, with the ambient wall-clock hour
(`new Date().getHours()`, range 0–23) made an explicit argument. -/
def getCurrentGreeting (currentHour : Nat) : String :=
  if currentHour < 12 then
    "Good Morning!"
  else if currentHour < 18 then
    "Good Afternoon!"
  else
    "Good Evening!"

/-- The winter message literal of `getSeasonalGreeting`. -/
def winterGreeting : String :=
  "🥶 Frosty greetings from someone who hasn’t felt their toes since November."

/-- The spring message literal of `getSeasonalGreeting`. -/
def springGreeting : String :=
  "🪻 May your spring be sunny and your antihistamines strong."

/-- The summer message literal of `getSeasonalGreeting`. -/
def summerGreeting : String :=
  "🌞 Warm summer wishes from the land of iced drinks and questionable tan lines."

/-- The fall message literal that `getSeasonalGreeting` computes in its last
branch but never returns. -/
def fallGreeting : String :=
  "🍂 Happy Fall! May your pumpkin spice be strong and your rakes be sturdy."

/-- `getSeasonalGreeting` from the source, with the ambient month
(`new Date().getMonth()`, 0-indexed 0–11) made an explicit argument.
A JavaScript function that falls off its end returns `undefined`, modelled as
`none`.  The winter, spring and summer branches `return` their message; the
fall branch (months 8–10) only assigns `greeting = '🍂 …'` to a local variable
and never returns it, so the function yields `undefined` there, exactly as it
does for month 0. -/
def getSeasonalGreeting (month : Nat) : Option String :=
  if month == 11 || month == 1 then
    some winterGreeting
  else if 2 ≤ month && month ≤ 4 then
    some springGreeting
  else if 5 ≤ month && month ≤ 7 then
    some summerGreeting
  else if 8 ≤ month && month ≤ 10 then
    let _greeting := fallGreeting
    none
  else
    none

/-- `setHeadAssetsFunctionality(res)`: overwrites `res.locals.styles` and
`res.locals.scripts` with fresh empty arrays (and installs the add/render
closures, which here are the standalone operations below). -/
def setHeadAssetsFunctionality (r : ResLocals) : ResLocals :=
  { r with styles := [], scripts := [] }

/-- `res.addStyle(css, priority = 0)`: pushes `{ content: css, priority }` onto
the end of `res.locals.styles`. -/
def addStyle (r : ResLocals) (css : String) (priority : Int := 0) : ResLocals :=
  { r with styles := r.styles ++ [{ content := css, priority := priority }] }

/-- `res.addScript(js, priority = 0)`: pushes `{ content: js, priority }` onto
the end of `res.locals.scripts`. -/
def addScript (r : ResLocals) (js : String) (priority : Int := 0) : ResLocals :=
  { r with scripts := r.scripts ++ [{ content := js, priority := priority }] }

/-- The ordering used by `.sort((a, b) => b.priority - a.priority)`: entry `a`
may precede entry `b` exactly when the comparator is non-positive on `(a, b)`,
i.e. `b.priority ≤ a.priority`. -/
def priorityDescLE (a b : AssetEntry) : Bool :=
  b.priority ≤ a.priority

/-- Insert one entry into an already-sorted run, keeping it in front of every
entry it is `priorityDescLE`-related to (so an earlier-pushed entry stays in
front of later-pushed entries of equal priority). -/
def insertByPriorityDesc (x : AssetEntry) : List AssetEntry → List AssetEntry
  | [] => [x]
  | y :: ys =>
    if priorityDescLE x y then
      x :: y :: ys
    else
      y :: insertByPriorityDesc x ys

/-- The effect of `Array.prototype.sort((a, b) => b.priority - a.priority)`.
ECMAScript (ES2019 and later) requires `sort` to be stable and, for a
consistent comparator such as this one, to produce the comparator-sorted
permutation — which is unique for a stable sort.  A stable insertion sort
computes exactly that permutation; `sortByPriorityDesc_eq_mergeSort` below
confirms it agrees with the standard-library stable merge sort. -/
def sortByPriorityDesc : List AssetEntry → List AssetEntry
  | [] => []
  | x :: xs => insertByPriorityDesc x (sortByPriorityDesc xs)

/-- `res.locals.renderStyles()`: sorts `res.locals.styles` **in place** by
descending priority, then joins the contents with `'\n'`.  Because JavaScript's
`sort` mutates the array, the result is the rendered string paired with the
post-call locals (whose `styles` now holds the sorted order). -/
def renderStyles (r : ResLocals) : String × ResLocals :=
  let sorted := sortByPriorityDesc r.styles
  (String.intercalate "\n" (sorted.map (fun item => item.content)),
   { r with styles := sorted })

/-- `res.locals.renderScripts()`: same as `renderStyles`, on
`res.locals.scripts`. -/
def renderScripts (r : ResLocals) : String × ResLocals :=
  let sorted := sortByPriorityDesc r.scripts
  (String.intercalate "\n" (sorted.map (fun item => item.content)),
   { r with scripts := sorted })

/-- One registration call made by a route middleware or handler between
installation and rendering. -/
inductive AssetOp where
  | style (content : String) (priority : Int)
  | script (content : String) (priority : Int)
deriving DecidableEq

/-- Run one registration call against the current locals. -/
def applyOp (r : ResLocals) : AssetOp → ResLocals
  | .style c p => addStyle r c p
  | .script c p => addScript r c p

/-- Run a sequence of registration calls in order. -/
def applyOps (r : ResLocals) (ops : List AssetOp) : ResLocals :=
  ops.foldl applyOp r

/-- The style entries contributed by a call sequence, in call order. -/
def styleEntriesOf (ops : List AssetOp) : List AssetEntry :=
  ops.filterMap fun
    | .style c p => some { content := c, priority := p }
    | .script _ _ => none

/-- The script entries contributed by a call sequence, in call order. -/
def scriptEntriesOf (ops : List AssetOp) : List AssetEntry :=
  ops.filterMap fun
    | .style _ _ => none
    | .script c p => some { content := c, priority := p }

/-- ECMAScript `String.prototype.toLowerCase` (simple case mapping), acting
character-wise on the string's data. -/
def jsToLowerCase (s : String) : String :=
  String.mk (s.data.map Char.toLower)

/-- `process.env.NODE_ENV?.toLowerCase() || 'production'`: optional chaining
yields `undefined` when the variable is unset, and `||` replaces any falsy
left operand — `undefined`, or the empty string, the only falsy string — with
the literal `'production'`. -/
def resolveNodeEnv (nodeEnv : Option String) : String :=
  match nodeEnv with
  | none => "production"
  | some s =>
    let lowered := jsToLowerCase s
    if lowered = "" then "production" else lowered

/-- ECMAScript template-literal interpolation `${v}` of a value that is either
a string or `undefined`: `ToString(undefined)` is the literal `"undefined"`. -/
def jsStringOfOptional (v : Option String) : String :=
  match v with
  | some s => s
  | none => "undefined"

/-- The fixed theme array of `addLocalVariables`. -/
def themes : List String :=
  ["blue-theme", "green-theme", "red-theme", "yellow-theme", "purple-theme", "orange-theme"]

/-- `themes[Math.floor(Math.random() * themes.length)]`: the randomness draw
`Math.random()` (a value in `[0, 1)`) is made an explicit rational argument;
out-of-range indexing would yield `undefined`, modelled by the `getD` default,
but never occurs for draws in `[0, 1)`. -/
def pickTheme (rand : ℚ) : String :=
  themes.getD (⌊rand * (themes.length : ℚ)⌋).toNat ""

/-- `addLocalVariables(req, res, next)`: composes the template locals from the
ambient inputs (year, `NODE_ENV`, hour, month, randomness draw, session) and
finishes by installing the head-asset registry.  `prev` is the response's
locals before the middleware runs. -/
def addLocalVariables (prev : ResLocals) (nodeEnv : Option String) (year : Int)
    (hour month : Nat) (rand : ℚ) (session : Option Session) : ResLocals :=
  let r := { prev with
    currentYear := year
    NODE_ENV := resolveNodeEnv nodeEnv
    greeting := "<p>" ++ getCurrentGreeting hour ++ "</p>"
    seasonalGreeting := "<p>" ++ jsStringOfOptional (getSeasonalGreeting month) ++ "</p>"
    bodyClass := pickTheme rand
    isLoggedIn := match session with
      | some s => s.user.isSome
      | none => false }
  setHeadAssetsFunctionality r

/-- A response-locals value with everything blank, used for concrete
instantiations. -/
def emptyLocals : ResLocals :=
  { currentYear := 0, NODE_ENV := "", greeting := "", seasonalGreeting := "",
    bodyClass := "", isLoggedIn := false, styles := [], scripts := [] }

/-- The comparator order is transitive. -/
theorem priorityDescLE_trans (a b c : AssetEntry) :
    priorityDescLE a b → priorityDescLE b c → priorityDescLE a c := by
  simp only [priorityDescLE, decide_eq_true_eq]
  exact fun h1 h2 => le_trans h2 h1

/-- The comparator order is total. -/
theorem priorityDescLE_total (a b : AssetEntry) :
    priorityDescLE a b || priorityDescLE b a := by
  simp only [priorityDescLE, Bool.or_eq_true, decide_eq_true_eq]
  exact le_total b.priority a.priority

/-- Inserting an entry past exactly the entries it must not precede. -/
theorem insertByPriorityDesc_append (x : AssetEntry) :
    ∀ (l₁ l₂ : List AssetEntry),
      (∀ b ∈ l₁, priorityDescLE x b = false) →
      (∀ z ∈ l₂, priorityDescLE x z = true) →
      insertByPriorityDesc x (l₁ ++ l₂) = l₁ ++ x :: l₂
  | [], [], _, _ => rfl
  | [], z :: zs, _, h₂ => by
    simp [insertByPriorityDesc, h₂ z (List.mem_cons_self z zs)]
  | b :: bs, l₂, h₁, h₂ => by
    have hb := h₁ b (List.mem_cons_self b bs)
    simp [insertByPriorityDesc, hb,
      insertByPriorityDesc_append x bs l₂ (fun c hc => h₁ c (List.mem_cons_of_mem b hc)) h₂]

/-- The insertion sort used to evaluate renders agrees with the standard
library's stable merge sort under the same comparator order. -/
theorem sortByPriorityDesc_eq_mergeSort :
    ∀ l : List AssetEntry, sortByPriorityDesc l = l.mergeSort priorityDescLE
  | [] => by simp [sortByPriorityDesc]
  | a :: l => by
    obtain ⟨l₁, l₂, h1, h2, h3⟩ :=
      List.mergeSort_cons priorityDescLE_trans priorityDescLE_total a l
    have hsorted := List.sorted_mergeSort priorityDescLE_trans priorityDescLE_total (a :: l)
    rw [h1] at hsorted
    have hl₂ : ∀ z ∈ l₂, priorityDescLE a z = true :=
      fun z hz => (List.pairwise_cons.mp (List.pairwise_append.mp hsorted).2.1).1 z hz
    have hl₁ : ∀ b ∈ l₁, priorityDescLE a b = false := by
      intro b hb
      simpa using h3 b hb
    calc sortByPriorityDesc (a :: l)
        = insertByPriorityDesc a (sortByPriorityDesc l) := rfl
      _ = insertByPriorityDesc a (l.mergeSort priorityDescLE) := by
            rw [sortByPriorityDesc_eq_mergeSort l]
      _ = insertByPriorityDesc a (l₁ ++ l₂) := by rw [h2]
      _ = l₁ ++ a :: l₂ := insertByPriorityDesc_append a l₁ l₂ hl₁ hl₂
      _ = (a :: l).mergeSort priorityDescLE := h1.symm

/-- Sorting permutes the entries. -/
theorem sortByPriorityDesc_perm (l : List AssetEntry) :
    (sortByPriorityDesc l).Perm l := by
  rw [sortByPriorityDesc_eq_mergeSort]
  exact List.mergeSort_perm l _

/-- The sorted run is pairwise ordered by the Boolean comparator order. -/
theorem sortByPriorityDesc_pairwiseBool (l : List AssetEntry) :
    (sortByPriorityDesc l).Pairwise (fun a b => priorityDescLE a b = true) := by
  rw [sortByPriorityDesc_eq_mergeSort]
  exact List.sorted_mergeSort priorityDescLE_trans priorityDescLE_total l

/-- The sorted run has non-increasing priorities. -/
theorem sortByPriorityDesc_pairwise (l : List AssetEntry) :
    (sortByPriorityDesc l).Pairwise (fun a b => b.priority ≤ a.priority) := by
  refine (sortByPriorityDesc_pairwiseBool l).imp ?_
  intro a b h
  simpa [priorityDescLE] using h

/-- Stability: an ordered pair of entries keeps its relative order. -/
theorem sortByPriorityDesc_stable (l : List AssetEntry) (a b : AssetEntry)
    (hab : b.priority ≤ a.priority) (h : [a, b].Sublist l) :
    [a, b].Sublist (sortByPriorityDesc l) := by
  rw [sortByPriorityDesc_eq_mergeSort]
  exact List.pair_sublist_mergeSort priorityDescLE_trans priorityDescLE_total
    (by simpa [priorityDescLE] using hab) h

/-- Sorting an already sorted run changes nothing. -/
theorem sortByPriorityDesc_idem (l : List AssetEntry) :
    sortByPriorityDesc (sortByPriorityDesc l) = sortByPriorityDesc l := by
  calc sortByPriorityDesc (sortByPriorityDesc l)
      = (sortByPriorityDesc l).mergeSort priorityDescLE :=
        sortByPriorityDesc_eq_mergeSort _
    _ = sortByPriorityDesc l :=
        List.mergeSort_of_sorted (sortByPriorityDesc_pairwiseBool l)

/-- Running a call sequence appends its contributions, in call order, to each
collection. -/
theorem applyOps_styles_scripts :
    ∀ (ops : List AssetOp) (r : ResLocals),
      (applyOps r ops).styles = r.styles ++ styleEntriesOf ops ∧
      (applyOps r ops).scripts = r.scripts ++ scriptEntriesOf ops
  | [], r => by simp [applyOps, styleEntriesOf, scriptEntriesOf]
  | op :: ops, r => by
    have ih := applyOps_styles_scripts ops (applyOp r op)
    cases op with
    | style c p =>
      simpa [applyOps, applyOp, addStyle, styleEntriesOf, scriptEntriesOf,
        List.filterMap_cons, List.append_assoc] using ih
    | script c p =>
      simpa [applyOps, applyOp, addScript, styleEntriesOf, scriptEntriesOf,
        List.filterMap_cons, List.append_assoc] using ih

/-- The modelled `toLowerCase` agrees with the standard library's
character-wise lowering. -/
theorem jsToLowerCase_eq_toLower (s : String) : jsToLowerCase s = s.toLower := by
  simp [jsToLowerCase, String.toLower, String.map_eq]

/-- Lower-casing yields the empty string exactly on the empty string. -/
theorem jsToLowerCase_eq_empty_iff (s : String) : jsToLowerCase s = "" ↔ s = "" := by
  cases s with
  | mk data => simp [jsToLowerCase, String.ext_iff]

/-- C1: for every sequence of addStyle/addScript calls on one request's
registry, renderScripts (resp. renderStyles) joins the entries' contents
with a newline separator in an order that is a permutation of the stored
entries, has non-increasing priorities, and keeps the relative order of any
pair whose first element may precede the second (in particular of
equal-priority pairs: stable tie-break); the stored collections themselves
are the contributed entries in call order; and on the concrete sequence
[(A,1), (B,3), (C,3), (D,0)] renderScripts returns the contents in order
B, C, A, D. -/
theorem renderScripts_renderStyles_desc_priority_stable
    (ops : List AssetOp) (r0 : ResLocals) :
    (∃ pScr : List AssetEntry,
        pScr.Perm (applyOps (setHeadAssetsFunctionality r0) ops).scripts ∧
        pScr.Pairwise (fun a b => b.priority ≤ a.priority) ∧
        (∀ a b : AssetEntry, b.priority ≤ a.priority →
          [a, b].Sublist (applyOps (setHeadAssetsFunctionality r0) ops).scripts →
          [a, b].Sublist pScr) ∧
        (renderScripts (applyOps (setHeadAssetsFunctionality r0) ops)).1 =
          String.intercalate "\n" (pScr.map (fun e => e.content))) ∧
    (∃ pSty : List AssetEntry,
        pSty.Perm (applyOps (setHeadAssetsFunctionality r0) ops).styles ∧
        pSty.Pairwise (fun a b => b.priority ≤ a.priority) ∧
        (∀ a b : AssetEntry, b.priority ≤ a.priority →
          [a, b].Sublist (applyOps (setHeadAssetsFunctionality r0) ops).styles →
          [a, b].Sublist pSty) ∧
        (renderStyles (applyOps (setHeadAssetsFunctionality r0) ops)).1 =
          String.intercalate "\n" (pSty.map (fun e => e.content))) ∧
    (applyOps (setHeadAssetsFunctionality r0) ops).scripts = scriptEntriesOf ops ∧
    (applyOps (setHeadAssetsFunctionality r0) ops).styles = styleEntriesOf ops ∧
    (renderScripts (applyOps (setHeadAssetsFunctionality r0)
      [AssetOp.script "A" 1, AssetOp.script "B" 3,
       AssetOp.script "C" 3, AssetOp.script "D" 0])).1 = "B\nC\nA\nD" := by
  refine ⟨⟨sortByPriorityDesc (applyOps (setHeadAssetsFunctionality r0) ops).scripts,
      sortByPriorityDesc_perm _, sortByPriorityDesc_pairwise _,
      fun a b => sortByPriorityDesc_stable _ a b, rfl⟩,
    ⟨sortByPriorityDesc (applyOps (setHeadAssetsFunctionality r0) ops).styles,
      sortByPriorityDesc_perm _, sortByPriorityDesc_pairwise _,
      fun a b => sortByPriorityDesc_stable _ a b, rfl⟩,
    ?_, ?_, ?_⟩
  · simpa using (applyOps_styles_scripts ops (setHeadAssetsFunctionality r0)).2
  · simpa using (applyOps_styles_scripts ops (setHeadAssetsFunctionality r0)).1
  · have hscr : (applyOps (setHeadAssetsFunctionality r0)
        [AssetOp.script "A" 1, AssetOp.script "B" 3,
         AssetOp.script "C" 3, AssetOp.script "D" 0]).scripts =
        scriptEntriesOf [AssetOp.script "A" 1, AssetOp.script "B" 3,
         AssetOp.script "C" 3, AssetOp.script "D" 0] := by
      simpa using (applyOps_styles_scripts _ (setHeadAssetsFunctionality r0)).2
    simp only [renderScripts, hscr]
    decide

/-- C1 witness: the concrete four-script sequence renders as B, C, A, D. -/
theorem renderScripts_desc_priority_stable_example :
    (renderScripts (applyOps (setHeadAssetsFunctionality emptyLocals)
      [AssetOp.script "A" 1, AssetOp.script "B" 3,
       AssetOp.script "C" 3, AssetOp.script "D" 0])).1 = "B\nC\nA\nD" :=
  (renderScripts_renderStyles_desc_priority_stable [] emptyLocals).2.2.2.2

/-- A registry state holding styles A (priority 1) then B (priority 3), used
to exhibit the in-place mutation performed by rendering. -/
def mutationWitnessLocals : ResLocals :=
  { emptyLocals with
    styles := [{ content := "A", priority := 1 }, { content := "B", priority := 3 }] }

/-- C2 counterexample: rendering is not non-destructive — after one
renderStyles call on a registry holding [(A,1), (B,3)], the stored style
collection is no longer in its insertion order (JavaScript's
`Array.prototype.sort` sorts the backing array in place). -/
theorem renderStyles_mutates_styles_order :
    (renderStyles mutationWitnessLocals).2.styles ≠ mutationWitnessLocals.styles := by
  decide

/-- C2 amended: calling renderStyles (resp. renderScripts) twice in
succession returns identical strings both times, and rendering preserves the
stored entries as a multiset and leaves the other collection untouched — but
it does overwrite the rendered collection's stored order with the sorted
order. -/
theorem render_idempotent_output_perm_entries (r : ResLocals) :
    ((renderStyles ((renderStyles r).2)).1 = (renderStyles r).1 ∧
     (renderStyles r).2.styles.Perm r.styles ∧
     (renderStyles r).2.scripts = r.scripts) ∧
    ((renderScripts ((renderScripts r).2)).1 = (renderScripts r).1 ∧
     (renderScripts r).2.scripts.Perm r.scripts ∧
     (renderScripts r).2.styles = r.styles) := by
  refine ⟨⟨?_, ?_, ?_⟩, ⟨?_, ?_, ?_⟩⟩
  · simp [renderStyles, sortByPriorityDesc_idem]
  · simpa [renderStyles] using sortByPriorityDesc_perm r.styles
  · simp [renderStyles]
  · simp [renderScripts, sortByPriorityDesc_idem]
  · simpa [renderScripts] using sortByPriorityDesc_perm r.scripts
  · simp [renderScripts]

/-- C3: the month bands of getSeasonalGreeting as implemented — winter for
months 11 and 1, spring for 2–4, summer for 5–7, no value for month 0, and,
contrary to the claim's fall band, no value for months 8–10 as well, because
the fall branch assigns its message to a local variable without returning
it. -/
theorem getSeasonalGreeting_values :
    getSeasonalGreeting 8 = none ∧ getSeasonalGreeting 9 = none ∧
    getSeasonalGreeting 10 = none ∧ getSeasonalGreeting 0 = none ∧
    getSeasonalGreeting 11 = some winterGreeting ∧
    getSeasonalGreeting 1 = some winterGreeting ∧
    getSeasonalGreeting 2 = some springGreeting ∧
    getSeasonalGreeting 3 = some springGreeting ∧
    getSeasonalGreeting 4 = some springGreeting ∧
    getSeasonalGreeting 5 = some summerGreeting ∧
    getSeasonalGreeting 6 = some summerGreeting ∧
    getSeasonalGreeting 7 = some summerGreeting := by
  decide

/-- C4: immediately after installation — whether by
setHeadAssetsFunctionality directly or at the end of addLocalVariables — both
asset collections are empty, regardless of whatever state the response locals
held before, so no entries can be carried over from any other request. -/
theorem installed_registry_collections_empty (prev : ResLocals)
    (nodeEnv : Option String) (year : Int) (hour month : Nat) (rand : ℚ)
    (session : Option Session) :
    (setHeadAssetsFunctionality prev).styles = [] ∧
    (setHeadAssetsFunctionality prev).scripts = [] ∧
    (addLocalVariables prev nodeEnv year hour month rand session).styles = [] ∧
    (addLocalVariables prev nodeEnv year hour month rand session).scripts = [] :=
  ⟨rfl, rfl, rfl, rfl⟩

/-- C5: getCurrentGreeting returns the morning message for hours below 12,
the afternoon message for hours in [12, 18), and the evening message from
hour 18 on. -/
theorem getCurrentGreeting_time_bands (h : Nat) :
    (h < 12 → getCurrentGreeting h = "Good Morning!") ∧
    (12 ≤ h → h < 18 → getCurrentGreeting h = "Good Afternoon!") ∧
    (18 ≤ h → getCurrentGreeting h = "Good Evening!") := by
  refine ⟨fun hh => ?_, fun h1 h2 => ?_, fun h1 => ?_⟩
  · simp [getCurrentGreeting, hh]
  · simp only [getCurrentGreeting]
    rw [if_neg (by omega), if_pos h2]
  · simp only [getCurrentGreeting]
    rw [if_neg (by omega), if_neg (by omega)]

/-- C5 witness: the boundary hours 0, 11, 12, 17, 18 and 23. -/
theorem getCurrentGreeting_time_bands_boundary :
    getCurrentGreeting 0 = "Good Morning!" ∧ getCurrentGreeting 11 = "Good Morning!" ∧
    getCurrentGreeting 12 = "Good Afternoon!" ∧ getCurrentGreeting 17 = "Good Afternoon!" ∧
    getCurrentGreeting 18 = "Good Evening!" ∧ getCurrentGreeting 23 = "Good Evening!" :=
  ⟨(getCurrentGreeting_time_bands 0).1 (by decide),
   (getCurrentGreeting_time_bands 11).1 (by decide),
   (getCurrentGreeting_time_bands 12).2.1 (by decide) (by decide),
   (getCurrentGreeting_time_bands 17).2.1 (by decide) (by decide),
   (getCurrentGreeting_time_bands 18).2.2 (by decide),
   (getCurrentGreeting_time_bands 23).2.2 (by decide)⟩

/-- C6: addStyle appends its entry to the end of the style collection and
leaves the scripts alone (and addScript symmetrically); an omitted priority
defaults to 0; adding the same content twice preserves both copies; and the
operations are total, so they never fail. -/
theorem addStyle_addScript_append_spec (r : ResLocals) (c : String) (p : Int) :
    (addStyle r c p).styles = r.styles ++ [{ content := c, priority := p }] ∧
    (addStyle r c p).scripts = r.scripts ∧
    (addStyle r c).styles = r.styles ++ [{ content := c, priority := 0 }] ∧
    (addStyle (addStyle r c p) c p).styles =
      r.styles ++ [{ content := c, priority := p }, { content := c, priority := p }] ∧
    (addScript r c p).scripts = r.scripts ++ [{ content := c, priority := p }] ∧
    (addScript r c p).styles = r.styles ∧
    (addScript r c).scripts = r.scripts ++ [{ content := c, priority := 0 }] ∧
    (addScript (addScript r c p) c p).scripts =
      r.scripts ++ [{ content := c, priority := p }, { content := c, priority := p }] := by
  simp [addStyle, addScript]

/-- C7: the composed isLoggedIn flag is true exactly when a session object
exists and carries an authenticated-user marker; it is false when there is no
session, and false when a session exists without a user marker. -/
theorem isLoggedIn_iff_session_user (prev : ResLocals) (nodeEnv : Option String)
    (year : Int) (hour month : Nat) (rand : ℚ) (session : Option Session) :
    ((addLocalVariables prev nodeEnv year hour month rand session).isLoggedIn = true ↔
      ∃ s, session = some s ∧ s.user.isSome = true) ∧
    (session = none →
      (addLocalVariables prev nodeEnv year hour month rand session).isLoggedIn = false) ∧
    (∀ s, session = some s → s.user = none →
      (addLocalVariables prev nodeEnv year hour month rand session).isLoggedIn = false) := by
  refine ⟨?_, ?_, ?_⟩
  · cases session with
    | none => simp [addLocalVariables, setHeadAssetsFunctionality]
    | some s => simp [addLocalVariables, setHeadAssetsFunctionality]
  · rintro rfl
    simp [addLocalVariables, setHeadAssetsFunctionality]
  · rintro s rfl hu
    simp [addLocalVariables, setHeadAssetsFunctionality, hu]

/-- C7 witness: a session carrying a user marker is reported as logged in. -/
theorem isLoggedIn_iff_session_user_instance :
    (addLocalVariables emptyLocals none 0 0 0 0 (some { user := some "alice" })).isLoggedIn
      = true :=
  (isLoggedIn_iff_session_user emptyLocals none 0 0 0 0
    (some { user := some "alice" })).1.mpr ⟨{ user := some "alice" }, rfl, rfl⟩

/-- C8 counterexample: when the configuration value is present but empty, the
composed environment name is not the lower-cased value — the `||` fallback
treats the empty (falsy) string like an absent value and yields the literal
"production". -/
theorem resolveNodeEnv_empty_string_counterexample :
    resolveNodeEnv (some "") ≠ jsToLowerCase "" ∧
    resolveNodeEnv (some "") = "production" ∧ jsToLowerCase "" = "" := by
  decide

/-- C8 amended: the composed environmentName is the configuration value
lower-cased when that value is present and non-empty, and is the literal
"production" when the value is absent or empty (the falsy fallback); the
resolution is total, so absence never surfaces as an error. -/
theorem resolveNodeEnv_lowercase_or_default (prev : ResLocals)
    (nodeEnv : Option String) (year : Int) (hour month : Nat) (rand : ℚ)
    (session : Option Session) (s : String) (hs : s ≠ "") :
    (addLocalVariables prev nodeEnv year hour month rand session).NODE_ENV =
      resolveNodeEnv nodeEnv ∧
    resolveNodeEnv none = "production" ∧
    resolveNodeEnv (some "") = "production" ∧
    resolveNodeEnv (some s) = jsToLowerCase s := by
  have hne : jsToLowerCase s ≠ "" := fun h => hs ((jsToLowerCase_eq_empty_iff s).mp h)
  exact ⟨rfl, rfl, by decide, by simp [resolveNodeEnv, hne]⟩

/-- C8 witness: a set, non-empty value is lower-cased. -/
theorem resolveNodeEnv_lowercase_or_default_instance :
    resolveNodeEnv (some "DEV") = "dev" :=
  ((resolveNodeEnv_lowercase_or_default emptyLocals none 0 0 0 0 none "DEV"
    (by decide)).2.2.2).trans (by decide)

/-- C9: for every randomness draw in [0, 1), pickTheme returns an element of
the fixed theme array, which has exactly six pairwise-distinct identifiers,
and every one of the six identifiers is returned for some draw. -/
theorem pickTheme_mem_themes_and_reachable :
    (∀ r : ℚ, 0 ≤ r → r < 1 → pickTheme r ∈ themes) ∧
    (∀ t ∈ themes, ∃ r : ℚ, 0 ≤ r ∧ r < 1 ∧ pickTheme r = t) ∧
    themes.length = 6 ∧ themes.Nodup := by
  refine ⟨?_, ?_, by decide, by decide⟩
  · intro r h0 h1
    have hlen : (themes.length : ℚ) = 6 := by norm_num [themes]
    have hge : (0 : ℤ) ≤ ⌊r * (themes.length : ℚ)⌋ :=
      Int.floor_nonneg.2 (by positivity)
    have hlt : ⌊r * (themes.length : ℚ)⌋ < 6 := by
      rw [hlen]
      exact Int.floor_lt.2 (by push_cast; nlinarith)
    have hestep : pickTheme r = themes.getD (⌊r * (themes.length : ℚ)⌋).toNat "" := rfl
    have hn6 : (⌊r * (themes.length : ℚ)⌋).toNat < 6 := by omega
    rw [hestep]
    generalize (⌊r * (themes.length : ℚ)⌋).toNat = n at hn6
    interval_cases n <;> decide
  · intro t ht
    fin_cases ht
    · exact ⟨0, by norm_num, by norm_num, by norm_num [pickTheme, themes]⟩
    · exact ⟨1/6, by norm_num, by norm_num, by norm_num [pickTheme, themes] <;> rfl⟩
    · exact ⟨2/6, by norm_num, by norm_num, by norm_num [pickTheme, themes] <;> rfl⟩
    · exact ⟨3/6, by norm_num, by norm_num, by norm_num [pickTheme, themes] <;> rfl⟩
    · exact ⟨4/6, by norm_num, by norm_num, by norm_num [pickTheme, themes] <;> rfl⟩
    · exact ⟨5/6, by norm_num, by norm_num, by norm_num [pickTheme, themes] <;> rfl⟩

/-- C9 witness: the draw one half lands inside the theme array. -/
theorem pickTheme_mem_themes_instance : pickTheme (1/2) ∈ themes :=
  pickTheme_mem_themes_and_reachable.1 (1/2) (by norm_num) (by norm_num)

/-- C10: whenever the seasonal resolver yields no value, the locals composer
still applies the paragraph wrapper to the interpolated undefined, storing
the literal string "<p>undefined</p>". -/
theorem seasonalGreeting_undefined_wrapped (prev : ResLocals)
    (nodeEnv : Option String) (year : Int) (hour month : Nat) (rand : ℚ)
    (session : Option Session) (hm : getSeasonalGreeting month = none) :
    (addLocalVariables prev nodeEnv year hour month rand session).seasonalGreeting =
      "<p>undefined</p>" := by
  simp [addLocalVariables, setHeadAssetsFunctionality, jsStringOfOptional, hm]

/-- C10 witness: month 0 (January) stores the wrapped undefined. -/
theorem seasonalGreeting_undefined_wrapped_january :
    (addLocalVariables emptyLocals none 0 0 0 0 none).seasonalGreeting =
      "<p>undefined</p>" :=
  seasonalGreeting_undefined_wrapped emptyLocals none 0 0 0 0 none (by decide)

/-- C2 amended witness: double rendering on a concrete registry returns the
same string. -/
theorem render_idempotent_output_perm_entries_instance :
    (renderStyles ((renderStyles emptyLocals).2)).1 = (renderStyles emptyLocals).1 :=
  (render_idempotent_output_perm_entries emptyLocals).1.1

/-- C4 witness: installation over a concrete non-empty prior state empties the
style collection. -/
theorem installed_registry_collections_empty_instance :
    (setHeadAssetsFunctionality emptyLocals).styles = [] :=
  (installed_registry_collections_empty emptyLocals none 0 0 0 0 none).1

/-- C6 witness: one concrete addStyle call appends its entry. -/
theorem addStyle_addScript_append_spec_instance :
    (addStyle emptyLocals "x" 2).styles = [{ content := "x", priority := 2 }] := by
  simpa using (addStyle_addScript_append_spec emptyLocals "x" 2).1
